import Mathlib

/-!
Shallow embedding of the execution-and-risk core of the godtradingbot
repository, together with theorems settling the specification claims.

Modelled sources:
- src/backend/api/routers/dex.py (price-impact model, liquidity gate)
- src/backend/services/dex/aggregator.py (venue aggregator, swap execution)
- src/backend/trading/strategy_switcher.py (strategy mode controller)
- src/tradingbot/backend/trading_agent/agents/risk_manager_agent.py (risk engine,
  position sizer)

Numeric conventions: Python ints, floats and `decimal.Decimal` values are
modelled as exact rationals (ℚ).  The `Decimal` context rounding (28
significant digits) is immaterial at the precision of every comparison
performed by the claims.  Python exceptions are modelled with `Except` /
`Option`; `float("inf")` sentinels are modelled as `none`.
-/

/-- A Python value stored under one key of the `liquidity_data` dict passed to
`calculate_price_impact`: either a numeric value (`int` / `float` / `Decimal`,
modelled as an exact rational) or a present but non-numeric value. -/
inductive PyVal where
  | num (q : ℚ)
  | nonNum
deriving DecidableEq

/-- The input dict of `calculate_price_impact` (dex.py lines 445-482).  A field
is `none` when the corresponding key is missing from the dict. -/
structure LiquidityData where
  price : Option PyVal
  base_liquidity : Option PyVal
  quote_liquidity : Option PyVal
deriving DecidableEq

/-- `calculate_price_impact` (dex.py lines 445-482), translated from the body
of the function with the name `Decimal` resolving to `decimal.Decimal` (the
evident intent; dex.py in fact lacks `from decimal import Decimal`, see
`calculate_price_impact_runtime`).  The three `ValueError` branches (missing
key, non-numeric value, non-positive value, lines 448-457) and the generic
handler all return `float("inf")`, modelled as `none`.  Lines 459-476 compute
the constant-product impact for a standard $10,000 trade. -/
def calculate_price_impact (liquidity_data : LiquidityData) : Option ℚ :=
  match liquidity_data.price, liquidity_data.base_liquidity,
      liquidity_data.quote_liquidity with
  | some (.num price), some (.num base_liquidity), some (.num quote_liquidity) =>
    if price ≤ 0 ∨ base_liquidity ≤ 0 ∨ quote_liquidity ≤ 0 then
      none
    else
      let standard_trade_size : ℚ := 10000
      let base_amount := standard_trade_size / price
      let k := base_liquidity * quote_liquidity
      let new_base_liquidity := base_liquidity + base_amount
      let new_quote_liquidity := k / new_base_liquidity
      let price_after := new_quote_liquidity / new_base_liquidity
      some (|price_after - price| / price)
  | _, _, _ => none

/-- The actual runtime behaviour of `calculate_price_impact` as the module is
written: dex.py never imports `Decimal`, so the first use of the name (the
`isinstance` check at line 451) raises `NameError`, which the generic
`except Exception` handler at line 480 swallows, returning `float("inf")`
(`none`) for every input, including well-formed positive pools.  Inputs with a
missing key take the `ValueError` path at line 449 and also yield the
sentinel. -/
def calculate_price_impact_runtime (_ : LiquidityData) : Option ℚ := none

/-- Boolean test for one required field of the liquidity dict being missing,
non-numeric, or non-positive (the three `ValueError` conditions of
dex.py lines 448-457). -/
def invalidField : Option PyVal → Bool
  | none => true
  | some .nonNum => true
  | some (.num q) => decide (q ≤ 0)

/-- The precondition-violation predicate of `calculate_price_impact`: some
required field is missing, non-numeric, or non-positive. -/
def invalidLiquidityData (d : LiquidityData) : Bool :=
  invalidField d.price || invalidField d.base_liquidity || invalidField d.quote_liquidity

/-- C1: on the pool `baseLiquidity = 1,000,000`, `quoteLiquidity = 1,000,000`,
`price = 1`, the constant-product computation written in the body of
`calculate_price_impact` yields exactly `201/10201 ≈ 0.019704`, which passes a
2% threshold and fails a 1.5% threshold — but the function as shipped returns
the infinite sentinel instead, because the module never imports `Decimal` and
the resulting `NameError` is swallowed into `float("inf")`. -/
theorem C1_price_impact_example :
    calculate_price_impact_runtime
        ⟨some (.num 1), some (.num 1000000), some (.num 1000000)⟩ = none
    ∧ calculate_price_impact
        ⟨some (.num 1), some (.num 1000000), some (.num 1000000)⟩
        = some (201 / 10201)
    ∧ (201 / 10201 : ℚ) ≤ 2 / 100
    ∧ (3 / 200 : ℚ) < 201 / 10201 := by
  refine ⟨rfl, ?_, by norm_num, by norm_num⟩
  simp only [calculate_price_impact]
  norm_num

/-- Python comparison `0 <= r` for the value the function returns, in the
`Option ℚ` encoding where `none` is `float("inf")`: Python evaluates
`float("inf") >= 0` to `True`, and a finite value compares as usual. -/
def pyfloat_zero_le : Option ℚ → Prop
  | some x => 0 ≤ x
  | none => True

/-- C4, settled against the shipped function `calculate_price_impact_runtime`:
whenever a required field of the liquidity dict is missing, non-numeric or
non-positive, the function returns the infinite sentinel and never raises
(a missing key takes the `ValueError` path of line 449; any other input
reaches the `NameError` at line 451, swallowed at line 480 — both yield
`float("inf")`); and for every input with positive price and reserves the
returned impact compares greater than or equal to 0 in Python's float order —
degenerately so, since the returned value is always the `inf` sentinel (the
missing `Decimal` import, see `C1_price_impact_example`) and
`float("inf") >= 0` holds. -/
theorem C4_sentinel_and_nonneg :
    (∀ d : LiquidityData, invalidLiquidityData d = true →
      calculate_price_impact_runtime d = none)
    ∧ (∀ (d : LiquidityData) (p b q : ℚ),
        d.price = some (.num p) → d.base_liquidity = some (.num b) →
        d.quote_liquidity = some (.num q) → 0 < p → 0 < b → 0 < q →
        pyfloat_zero_le (calculate_price_impact_runtime d)) :=
  ⟨fun _ _ => rfl, fun _ _ _ _ _ _ _ _ _ _ => trivial⟩

/-- Closed witness for `C4_sentinel_and_nonneg`: a dict with a missing price
key yields the sentinel, and on the concrete positive pool of the spec the
returned value compares greater than or equal to 0. -/
theorem C4_sentinel_and_nonneg_witness :
    calculate_price_impact_runtime ⟨none, some (.num 1), some (.num 1)⟩ = none
    ∧ pyfloat_zero_le (calculate_price_impact_runtime
        ⟨some (.num 1), some (.num 1000000), some (.num 1000000)⟩) :=
  ⟨C4_sentinel_and_nonneg.1 _ (by decide),
   C4_sentinel_and_nonneg.2 _ 1 1000000 1000000 rfl rfl rfl
     (by norm_num) (by norm_num) (by norm_num)⟩

/-- An `HTTPException` raised by the backend: status code plus detail
message. -/
structure HTTPErr where
  status_code : ℕ
  detail : String
deriving DecidableEq

/-- Python `str.split("/")`, on the character list of the string: splits at
every `'/'`, keeps empty segments, and yields `[""]` for the empty string
(`"A/".split("/") == ["A", ""]`, `"A/B/C".split("/") == ["A","B","C"]`). -/
def py_split_slash : List Char → List (List Char)
  | [] => [[]]
  | c :: rest =>
    let r := py_split_slash rest
    if c = '/' then [] :: r
    else
      match r with
      | [] => [[c]]
      | seg :: segs => (c :: seg) :: segs

/-- Token pair parsing as performed by `DEXAggregator.get_pool_info`
(aggregator.py lines 85-88) and `SolanaDEXManager.get_liquidity`
(solana_dex_manager.py lines 52-54): split on `"/"` and reject unless exactly
two segments result.  The segments themselves are not checked for
emptiness. -/
def parse_token_pair (token_pair : String) : Except HTTPErr (String × String) :=
  let tokens := (py_split_slash token_pair.toList).map List.asString
  if tokens.length ≠ 2 then .error ⟨400, "Invalid token pair format"⟩
  else .ok (tokens.getD 0 "", tokens.getD 1 "")

/-- C9 counterexample: the claim says a pair string with an empty segment such
as `"A/"` is rejected, but splitting `"A/"` on `"/"` yields the two segments
`["A", ""]`, so the length check passes and parsing succeeds with an empty
quote token. -/
theorem C9_counterexample :
    parse_token_pair "A/" = .ok ("A", "") := by
  rfl

/-- C9 amended: parsing a token pair fails with the invalid-pair-format error
if and only if splitting the string on `"/"` does not yield exactly two
segments; the segments may be empty, so `"A/"` and `"/B"` are accepted. -/
theorem C9_pair_format (token_pair : String) :
    (∃ e, parse_token_pair token_pair = .error e)
      ↔ (py_split_slash token_pair.toList).length ≠ 2 := by
  unfold parse_token_pair
  rcases eq_or_ne (py_split_slash token_pair.toList).length 2 with h | h
  · have hd : (py_split_slash token_pair.data).length = 2 := h
    rw [if_neg (by simp [List.length_map, hd])]
    simp only [reduceCtorEq, exists_false, false_iff, ne_eq, not_not]
    exact hd
  · have hd : (py_split_slash token_pair.data).length ≠ 2 := h
    rw [if_pos (by simp [List.length_map, hd])]
    simp only [Except.error.injEq, exists_eq', true_iff, ne_eq]
    exact hd

/-- Threshold constants of the liquidity gate (`LiquidityThresholds`, dex.py
lines 18-22). -/
def MIN_LIQUIDITY_USD : ℚ := 100000

/-- Maximum tolerated price impact (2%). -/
def MAX_PRICE_IMPACT : ℚ := 2 / 100

/-- Minimum tolerated 24h volume in USD. -/
def MIN_VOLUME_24H : ℚ := 50000

/-- Maximum tolerated spread (1%). -/
def MAX_SPREAD : ℚ := 1 / 100

/-- The best-liquidity pool record consumed by the gate (the
`best_liquidity` entry of `get_pool_info`). -/
structure PoolBest where
  liquidity_usd : ℚ
  volume_24h : ℚ
  spread : ℚ
deriving DecidableEq

/-- A venue quote as produced by the aggregator (`dex` is the venue id the
aggregator stamps onto the quote dict). -/
structure Quote where
  dex : String
  input_amount : ℚ
  output_amount : ℚ
  price_impact : ℚ
deriving DecidableEq

/-- The claim-side expected computation for the liquidity gate: the
threshold-check sequence written in `execute_swap` (dex.py lines 39-73),
translated with the name `Decimal` resolving.  The shipped module lacks
`from decimal import Decimal`, so this chain is never executed — the actual
behaviour is `execute_swap_checks_runtime`.  As written, checks run fail-fast
in the fixed order liquidity, volume, spread, then — after the quote is
obtained (`none` models `get_best_quote` yielding no quote) — price impact.
Each rejection is an `HTTPException(400, message)` whose text names the
threshold and its configured limit; the observed value does not appear in the
exception, and no structured payload exists beyond status code and
message. -/
def execute_swap_checks (best_pool : PoolBest) (quote : Option Quote) :
    Except HTTPErr Quote :=
  if best_pool.liquidity_usd < MIN_LIQUIDITY_USD then
    .error ⟨400, "Insufficient liquidity (min: 100000)"⟩
  else if best_pool.volume_24h < MIN_VOLUME_24H then
    .error ⟨400, "Insufficient volume (min: 50000)"⟩
  else if best_pool.spread > MAX_SPREAD then
    .error ⟨400, "Spread too high (max: 0.01)"⟩
  else
    match quote with
    | none => .error ⟨400, "No valid quote found"⟩
    | some q =>
      if q.price_impact > MAX_PRICE_IMPACT then
        .error ⟨400, "Price impact too high (max: 0.02)"⟩
      else .ok q

/-- The actual runtime behaviour of the threshold section of `execute_swap`:
dex.py never imports `Decimal`, so the very first comparison
`Decimal(str(best_pool["liquidity_usd"])) < ...` at line 40 raises
`NameError` for every pool that reaches the checks, caught by the generic
handler at line 76 and re-raised as
`HTTPException(500, "name 'Decimal' is not defined")` (`str` of the
`NameError`).  No threshold rejection is ever issued. -/
def execute_swap_checks_runtime (_ : PoolBest) (_ : Option Quote) :
    Except HTTPErr Quote :=
  .error ⟨500, "name 'Decimal' is not defined"⟩

/-- C3: at the claim's concrete scenario — liquidity exactly 100,000 and
volume 49,999 — the shipped gate raises `NameError` (missing `Decimal`
import) and surfaces an HTTP 500, never the claimed volume rejection; the
check chain as written (the claim-side expected computation) would reject
citing volume first, per the claimed order, but its rejection is only the
message string naming the threshold and the limit: two pools whose observed
volumes differ (49,999 vs 49,998) produce identical rejection values, so the
observed value is not carried as structured data even by the written code. -/
theorem C3_gate_runtime_bug :
    execute_swap_checks_runtime ⟨100000, 49999, 1/1000⟩ none
      = .error ⟨500, "name 'Decimal' is not defined"⟩
    ∧ execute_swap_checks ⟨100000, 49999, 1/1000⟩ none
      = .error ⟨400, "Insufficient volume (min: 50000)"⟩
    ∧ execute_swap_checks ⟨100000, 49999, 1/1000⟩ none
      = execute_swap_checks ⟨100000, 49998, 1/1000⟩ none
    ∧ (49999 : ℚ) ≠ 49998 :=
  ⟨rfl, rfl, rfl, by norm_num⟩

/-- Outcome of dispatching `quote` to one venue inside
`DEXAggregator.get_best_quote` (aggregator.py lines 44-55): the provider
returned a (truthy) quote dict, returned `None`, or raised — a raise is caught
and logged per provider and never propagates. -/
inductive ProviderOutcome where
  | success (q : Quote)
  | empty
  | failure
deriving DecidableEq

/-- The provider registry `self.supported_dexes` (aggregator.py lines 20-36):
venue ids in dict insertion order, each with its `enabled` flag (all three are
enabled in the source; the `priority` numbers 1, 2, 3 coincide with this
order). -/
def supported_dexes : List (String × Bool) :=
  [("jupiter", true), ("raydium", true), ("orca", true)]

/-- The `quotes` list accumulated by the loop of `get_best_quote`
(aggregator.py lines 39-55): enabled providers are queried in registry order,
a successful truthy quote is stamped with the venue id and appended, anything
else is skipped. -/
def collect_quotes (dexes : List (String × Bool))
    (outcomes : String → ProviderOutcome) : List Quote :=
  dexes.filterMap fun nd =>
    if nd.2 then
      match outcomes nd.1 with
      | .success q => some { q with dex := nd.1 }
      | _ => none
    else none

/-- Python `min(quotes, key=lambda x: x["price_impact"])` on a non-empty list
seeded with its head: the running best is replaced only on strictly smaller
key, so the first minimal element wins ties. -/
def min_fold (q : Quote) (qs : List Quote) : Quote :=
  qs.foldl (fun best x => if x.price_impact < best.price_impact then x else best) q

/-- `DEXAggregator.get_best_quote` (aggregator.py lines 38-60) as a function of
the per-provider outcomes: collect quotes from enabled providers in registry
order, fail with `HTTPException(400, "No valid quotes found")` when none
succeeded, otherwise return the minimum-price-impact quote (first wins
ties). -/
def get_best_quote (outcomes : String → ProviderOutcome) : Except HTTPErr Quote :=
  match collect_quotes supported_dexes outcomes with
  | [] => .error ⟨400, "No valid quotes found"⟩
  | q :: qs => .ok (min_fold q qs)

theorem min_fold_le (qs : List Quote) (q : Quote) :
    (min_fold q qs).price_impact ≤ q.price_impact := by
  induction qs generalizing q with
  | nil => exact le_refl _
  | cons x xs ih =>
    show (min_fold (if x.price_impact < q.price_impact then x else q) xs).price_impact ≤ _
    refine le_trans (ih _) ?_
    split_ifs with h
    · exact le_of_lt h
    · exact le_refl _

theorem min_fold_first_min (qs : List Quote) (q : Quote) :
    ∃ l₁ l₂, q :: qs = l₁ ++ min_fold q qs :: l₂
      ∧ (∀ x ∈ l₁, (min_fold q qs).price_impact < x.price_impact)
      ∧ (∀ x ∈ l₂, (min_fold q qs).price_impact ≤ x.price_impact) := by
  induction qs generalizing q with
  | nil => exact ⟨[], [], rfl, by simp, by simp⟩
  | cons x xs ih =>
    have hstep : min_fold q (x :: xs)
        = min_fold (if x.price_impact < q.price_impact then x else q) xs := rfl
    by_cases h : x.price_impact < q.price_impact
    · obtain ⟨l₁, l₂, hsplit, hlt, hle⟩ := ih x
      rw [hstep, if_pos h]
      refine ⟨q :: l₁, l₂, by rw [List.cons_append, ← hsplit], ?_, hle⟩
      intro y hy
      rcases List.mem_cons.mp hy with rfl | hy
      · exact lt_of_le_of_lt (min_fold_le xs x) h
      · exact hlt y hy
    · obtain ⟨l₁, l₂, hsplit, hlt, hle⟩ := ih q
      rw [hstep, if_neg h]
      rcases l₁ with _ | ⟨a, l₁⟩
      · have h2 : q = min_fold q xs ∧ xs = l₂ :=
          List.cons_eq_cons.mp (by simpa using hsplit)
        refine ⟨[], x :: xs, by simpa using congrArg (· :: x :: xs) h2.1, by simp, ?_⟩
        intro y hy
        rcases List.mem_cons.mp hy with rfl | hy
        · rw [← h2.1]; exact not_lt.mp h
        · exact hle y (h2.2 ▸ hy)
      · have h2 : q = a ∧ xs = l₁ ++ min_fold q xs :: l₂ :=
          List.cons_eq_cons.mp (by simpa using hsplit)
        have hqlt : (min_fold q xs).price_impact < q.price_impact := by
          have := hlt a (by simp)
          rwa [← h2.1] at this
        refine ⟨q :: x :: l₁, l₂, ?_, ?_, hle⟩
        · calc q :: x :: xs
              = q :: x :: (l₁ ++ min_fold q xs :: l₂) := by rw [← h2.2]
            _ = (q :: x :: l₁) ++ min_fold q xs :: l₂ := by simp
        · intro y hy
          rcases List.mem_cons.mp hy with rfl | hy
          · exact hqlt
          · rcases List.mem_cons.mp hy with rfl | hy
            · exact lt_of_lt_of_le hqlt (not_lt.mp h)
            · exact hlt y (by simp [hy])

/-- C2: per-provider failures are absorbed (the only failure of
`get_best_quote` is the no-quote error, and only when no enabled provider
succeeded); when at least one enabled provider succeeds the returned quote has
minimal price impact among all successfully returned quotes, with ties won by
the provider earliest in the fixed registry order (jupiter, raydium, orca);
when no provider succeeds the call fails with
`HTTPException(400, "No valid quotes found")` and no quote is returned. -/
theorem C2_best_quote (outcomes : String → ProviderOutcome) :
    (collect_quotes supported_dexes outcomes = [] →
      get_best_quote outcomes = .error ⟨400, "No valid quotes found"⟩)
    ∧ (∀ e, get_best_quote outcomes = .error e →
        e = ⟨400, "No valid quotes found"⟩
        ∧ collect_quotes supported_dexes outcomes = [])
    ∧ (∀ q qs, collect_quotes supported_dexes outcomes = q :: qs →
        ∃ best l₁ l₂, get_best_quote outcomes = .ok best
          ∧ q :: qs = l₁ ++ best :: l₂
          ∧ (∀ x ∈ l₁, best.price_impact < x.price_impact)
          ∧ (∀ x ∈ l₂, best.price_impact ≤ x.price_impact)) := by
  refine ⟨fun h => ?_, fun e he => ?_, fun q qs h => ?_⟩
  · unfold get_best_quote
    rw [h]
  · unfold get_best_quote at he
    rcases hc : collect_quotes supported_dexes outcomes with _ | ⟨q, qs⟩
    · rw [hc] at he
      exact ⟨(Except.error.injEq _ _ ▸ he).symm, rfl⟩
    · rw [hc] at he
      exact absurd he (by simp)
  · obtain ⟨l₁, l₂, hsplit, hlt, hle⟩ := min_fold_first_min qs q
    refine ⟨min_fold q qs, l₁, l₂, ?_, hsplit, hlt, hle⟩
    unfold get_best_quote
    rw [h]

/-- Closed witness for `C2_best_quote`: when every provider raises the call
fails with the no-quote error; and when jupiter fails while raydium and orca
both return quotes with equal price impact 3%, the raydium quote (earlier in
registry order) is returned. -/
theorem C2_best_quote_witness :
    get_best_quote (fun _ => .failure) = .error ⟨400, "No valid quotes found"⟩
    ∧ ∃ best l₁ l₂,
        get_best_quote (fun n =>
            if n = "raydium" then .success ⟨"", 1, 1, 3/100⟩
            else if n = "orca" then .success ⟨"", 1, 2, 3/100⟩
            else .failure)
          = .ok best
        ∧ [Quote.mk "raydium" 1 1 (3/100), Quote.mk "orca" 1 2 (3/100)]
            = l₁ ++ best :: l₂
        ∧ (∀ x ∈ l₁, best.price_impact < x.price_impact)
        ∧ (∀ x ∈ l₂, best.price_impact ≤ x.price_impact) :=
  ⟨(C2_best_quote (fun _ => .failure)).1 rfl,
   (C2_best_quote _).2.2 (Quote.mk "raydium" 1 1 (3/100))
     [Quote.mk "orca" 1 2 (3/100)] rfl⟩

/-- The two Prometheus-style counters touched by `execute_swap`
(`TradingMetrics.swap_volume`, `TradingMetrics.swap_count`). -/
structure TradingMetrics where
  swap_volume : ℚ
  swap_count : ℕ
deriving DecidableEq

/-- The dict returned by `DEXAggregator._execute_dex_swap` on success
(aggregator.py lines 178-183). -/
structure DexSwapResult where
  output_amount : ℚ
  price_impact : ℚ
  tx_hash : Option String
deriving DecidableEq

/-- The completed-swap dict returned by `DEXAggregator.execute_swap`
(aggregator.py lines 72-79). -/
structure SwapReceipt where
  status : String
  input_amount : ℚ
  output_amount : ℚ
  price_impact : ℚ
  transaction_hash : Option String
  dex_used : String
deriving DecidableEq

/-- `DEXAggregator.execute_swap` (aggregator.py lines 62-83) with the metric
counters threaded as explicit state.  `execute_dex_swap` abstracts
`self._execute_dex_swap` (the provider submission; `.error e` models a raise
whose `str` is `e`).  A dex id absent from the registry raises `KeyError` at
line 65 (whose `str` is the quoted key).  Any raise is caught by the generic
handler (line 81) and re-raised as `HTTPException(500, ...)` with the counters
untouched; on success the volume counter grows by the quote's input amount and
the count by one (lines 69-70) before the completed dict is returned. -/
def aggregator_execute_swap
    (execute_dex_swap : Quote → Except String DexSwapResult)
    (m : TradingMetrics) (quote : Quote) :
    Except HTTPErr SwapReceipt × TradingMetrics :=
  if (supported_dexes.map Prod.fst).contains quote.dex then
    match execute_dex_swap quote with
    | .error e =>
      (.error ⟨500, "Swap execution failed: " ++ e⟩, m)
    | .ok result =>
      (.ok { status := "completed", input_amount := quote.input_amount,
             output_amount := result.output_amount,
             price_impact := result.price_impact,
             transaction_hash := result.tx_hash, dex_used := quote.dex },
       { swap_volume := m.swap_volume + quote.input_amount,
         swap_count := m.swap_count + 1 })
  else
    (.error ⟨500, "Swap execution failed: " ++ "'" ++ quote.dex ++ "'"⟩, m)

/-- C10: when `execute_swap` fails (the provider submission raises, or the
dex id is unknown), the swap-volume and swap-count counters are left
unchanged; when the submission succeeds, the counters grow by the quote's
input amount and by one respectively and the completed receipt is returned;
and any change to the counters implies exactly that increment together with a
completed result. -/
theorem C10_swap_metrics (execute_dex_swap : Quote → Except String DexSwapResult)
    (m : TradingMetrics) (quote : Quote) :
    (∀ e, (aggregator_execute_swap execute_dex_swap m quote).1 = .error e →
      (aggregator_execute_swap execute_dex_swap m quote).2 = m)
    ∧ (∀ result, execute_dex_swap quote = .ok result →
        (supported_dexes.map Prod.fst).contains quote.dex = true →
      aggregator_execute_swap execute_dex_swap m quote
        = (.ok { status := "completed", input_amount := quote.input_amount,
                 output_amount := result.output_amount,
                 price_impact := result.price_impact,
                 transaction_hash := result.tx_hash, dex_used := quote.dex },
           { swap_volume := m.swap_volume + quote.input_amount,
             swap_count := m.swap_count + 1 }))
    ∧ ((aggregator_execute_swap execute_dex_swap m quote).2 ≠ m →
        (aggregator_execute_swap execute_dex_swap m quote).2
          = { swap_volume := m.swap_volume + quote.input_amount,
              swap_count := m.swap_count + 1 }
        ∧ ∃ r, (aggregator_execute_swap execute_dex_swap m quote).1 = .ok r
            ∧ r.status = "completed") := by
  unfold aggregator_execute_swap
  by_cases hd : (supported_dexes.map Prod.fst).contains quote.dex
  · rw [if_pos hd]
    rcases hx : execute_dex_swap quote with e | result
    · refine ⟨fun _ _ => rfl, fun r hr _ => ?_, fun hne => absurd rfl hne⟩
      cases hr
    · refine ⟨fun e he => ?_, fun r hr _ => ?_, fun _ => ⟨rfl, _, rfl, rfl⟩⟩
      · exact absurd he (by simp)
      · injection hr with h2
        rw [h2]
  · rw [if_neg hd]
    exact ⟨fun _ _ => rfl, fun r _ hd2 => absurd hd2 hd,
      fun hne => absurd rfl hne⟩

/-- Closed witness for `C10_swap_metrics`: a failing submission leaves the
counters at zero, and a successful jupiter submission of input amount 5 bumps
them to volume 5 and count 1 with a completed receipt. -/
theorem C10_swap_metrics_witness :
    (aggregator_execute_swap (fun _ => .error "boom") ⟨0, 0⟩
        ⟨"jupiter", 5, 0, 0⟩).2 = ⟨0, 0⟩
    ∧ aggregator_execute_swap (fun _ => .ok ⟨2, 1/100, some "0xabc"⟩) ⟨0, 0⟩
        ⟨"jupiter", 5, 0, 0⟩
      = (.ok ⟨"completed", 5, 2, 1/100, some "0xabc", "jupiter"⟩, ⟨0 + 5, 0 + 1⟩) :=
  ⟨(C10_swap_metrics (fun _ => .error "boom") ⟨0, 0⟩ ⟨"jupiter", 5, 0, 0⟩).1
      ⟨500, "Swap execution failed: " ++ "boom"⟩ rfl,
   (C10_swap_metrics (fun _ => .ok ⟨2, 1/100, some "0xabc"⟩) ⟨0, 0⟩
      ⟨"jupiter", 5, 0, 0⟩).2.1 ⟨2, 1/100, some "0xabc"⟩ rfl rfl⟩

/-- The `position_sizing` configuration dict of `RiskManagerAgent.__init__`
(risk_manager_agent.py lines 32-45). -/
structure PositionSizingConfig where
  base_size : ℚ
  size_multiplier : ℚ
  max_position_percent : ℚ
  risk_based_sizing : Bool
  volatility_adjustment : Bool
  staged_entry : Bool
  entry_stages : List ℚ
  profit_targets : List ℚ
  size_per_stage : List ℚ
deriving DecidableEq

/-- The scalar risk configuration of `RiskManagerAgent.__init__`
(risk_manager_agent.py lines 29-31): `max_position_size`, `max_leverage`,
`min_margin_ratio`, plus the position-sizing sub-config. -/
structure RiskConfig where
  max_position_size : ℚ
  max_leverage : ℚ
  min_margin_ratio : ℚ
  position_sizing : PositionSizingConfig
deriving DecidableEq

/-- The default position-sizing configuration (risk_manager_agent.py
lines 34-44). -/
def default_position_sizing : PositionSizingConfig :=
  { base_size := 1000, size_multiplier := 1, max_position_percent := 1/5,
    risk_based_sizing := true, volatility_adjustment := true,
    staged_entry := false, entry_stages := [1/2, 3/10, 1/5],
    profit_targets := [2, 3, 5], size_per_stage := [1/5, 1/4, 1/5] }

/-- The default risk configuration (risk_manager_agent.py lines 29-31:
`max_position_size = 100000`, `max_leverage = 5`,
`min_margin_ratio = 0.1`). -/
def default_risk_config : RiskConfig :=
  { max_position_size := 100000, max_leverage := 5, min_margin_ratio := 1/10,
    position_sizing := default_position_sizing }

/-- The `ValueError`s raised by the validation prologue of
`RiskManagerAgent.calculate_position_size` (risk_manager_agent.py
lines 141-151), one constructor per raise site in source order. -/
inductive SizingValidationError where
  | emptySymbol
  | nonPositivePrice
  | riskFactorOutOfRange
  | leverageOutOfRange
deriving DecidableEq

/-- One staged-entry dict built by the loop of `calculate_position_size`
(risk_manager_agent.py lines 182-189). -/
structure EntryStage where
  size : ℚ
  price : ℚ
  target_price : ℚ
  size_percentage : ℚ
deriving DecidableEq

/-- The dict returned by `calculate_position_size` (risk_manager_agent.py
lines 191-199). -/
structure PositionSizeResult where
  total_size : ℚ
  stages : Option (List EntryStage)
  risk_factor : ℚ
  leverage : ℚ
  max_size : ℚ
  volatility_adjusted : Bool
  risk_based : Bool
deriving DecidableEq

/-- `RiskManagerAgent.calculate_position_size` (risk_manager_agent.py
lines 137-199): validate symbol, price, risk factor and leverage, in that
order, raising `ValueError`; then size the position from the configuration
(Python `zip` over the three staged-entry lists truncates to the shortest,
exactly as `List.zip`). -/
def calculate_position_size (cfg : RiskConfig) (symbol : String)
    (price risk_factor leverage : ℚ) :
    Except SizingValidationError PositionSizeResult :=
  if symbol = "" then .error .emptySymbol
  else if price ≤ 0 then .error .nonPositivePrice
  else if risk_factor ≤ 0 ∨ 1 < risk_factor then .error .riskFactorOutOfRange
  else if leverage < 1 ∨ cfg.max_leverage < leverage then .error .leverageOutOfRange
  else
    let c := cfg.position_sizing
    let base_size := c.base_size * c.size_multiplier
    let max_size := cfg.max_position_size * c.max_position_percent
    let size0 := min base_size max_size
    let size1 := if c.risk_based_sizing then size0 * risk_factor else size0
    let size2 := size1 / leverage
    let size3 := if c.volatility_adjustment then size2 * (8/10) else size2
    let stages :=
      (c.entry_stages.zip (c.profit_targets.zip c.size_per_stage)).map
        fun spt => EntryStage.mk (size3 * spt.1) price (price * spt.2.1) spt.2.2
    .ok { total_size := size3,
          stages := if c.staged_entry then some stages else none,
          risk_factor := risk_factor, leverage := leverage,
          max_size := max_size,
          volatility_adjusted := c.volatility_adjustment,
          risk_based := c.risk_based_sizing }

/-- C5: `calculate_position_size` raises a `ValueError` exactly for the
invalid inputs — empty symbol, price ≤ 0, risk factor outside (0, 1], or
leverage outside [1, maxLeverage] — and the validation happens before any
size is computed; for every other input no validation error is raised. -/
theorem C5_position_size_validation (cfg : RiskConfig) (symbol : String)
    (price risk_factor leverage : ℚ) :
    (∃ e, calculate_position_size cfg symbol price risk_factor leverage
        = .error e)
      ↔ (symbol = "" ∨ price ≤ 0 ∨ risk_factor ≤ 0 ∨ 1 < risk_factor
          ∨ leverage < 1 ∨ cfg.max_leverage < leverage) := by
  unfold calculate_position_size
  split_ifs with h1 h2 h3 h4
  · simp [h1]
  · simp [h1, h2]
  · rcases h3 with h3 | h3 <;> simp [h1, h2, h3]
  · rcases h4 with h4 | h4 <;> simp [h1, h2, h3, h4]
  · push_neg at h3 h4
    constructor
    · rintro ⟨e, he⟩
      cases he
    · rintro (h | h | h | h | h | h)
      · exact absurd h h1
      · exact absurd h h2
      · exact absurd h (not_le.mpr h3.1)
      · exact absurd h (not_lt.mpr h3.2)
      · exact absurd h (not_lt.mpr h4.1)
      · exact absurd h (not_lt.mpr h4.2)

/-- A Python arithmetic exception: `ZeroDivisionError` (float/Decimal division
by zero raises in Python; it is not caught inside the risk-assessment
methods). -/
inductive PyExn where
  | zeroDivision
deriving DecidableEq

/-- Modelled from the spec: the `Position` pydantic model
(`src.shared.models.pydantic_models`, not part of the sources) — symbol,
signed size, entry price, current (mark) price, leverage, unrealized P&L.  The
`leverage` field is `Option` because `assess_position_risk` probes it with
`hasattr`; the spec does not constrain its value.  The open-time field is
omitted (not consumed by any modelled operation). -/
structure Position where
  symbol : String
  size : ℚ
  entry_price : ℚ
  current_price : ℚ
  leverage : Option ℚ
  unrealized_pnl : ℚ
deriving DecidableEq

/-- The dict returned by `RiskManagerAgent.assess_position_risk`
(risk_manager_agent.py lines 358-365). -/
structure PositionRisk where
  risk_score : ℚ
  margin_ratio : ℚ
  liquidation_price : ℚ
  notional_value : ℚ
  margin_required : ℚ
  volatility_risk : ℚ
deriving DecidableEq

/-- `RiskManagerAgent.assess_position_risk` (risk_manager_agent.py
lines 303-365).  The four leading guards collect the Python
`ZeroDivisionError` sites, all uncaught: `notional/position.leverage`
(line 309), `.../position.entry_price` (line 328),
`notional/self.max_position_size` (line 335) and
`position.leverage/self.max_leverage` (line 339, only reached when the
position has a leverage attribute); each division raises before any value is
returned, so collapsing them into leading guards is behaviourally
equivalent.  The remainder mirrors lines 308-365 term by term. -/
def assess_position_risk (cfg : RiskConfig) (p : Position) :
    Except PyExn PositionRisk :=
  if p.leverage = some 0 then .error .zeroDivision
  else if p.entry_price = 0 then .error .zeroDivision
  else if cfg.max_position_size = 0 then .error .zeroDivision
  else if p.leverage ≠ none ∧ cfg.max_leverage = 0 then .error .zeroDivision
  else
    let notional_value := p.size * p.current_price
    let margin_required :=
      match p.leverage with
      | some l => notional_value / l
      | none => notional_value
    let liquidation_price :=
      if 0 < p.entry_price then p.entry_price * (1 - cfg.min_margin_ratio) else 0
    let margin_ratio :=
      if 0 < p.current_price then
        (p.current_price - liquidation_price) / p.current_price
      else 0
    let price_change := |p.current_price - p.entry_price| / p.entry_price
    let volatility_risk := min 1 (price_change * 15)
    let size_risk := min 1 (notional_value / cfg.max_position_size * 2)
    let leverage_risk :=
      match p.leverage with
      | some l => min 1 (l / cfg.max_leverage * 3)
      | none => 1/2
    let risk_score := min 1 (max 0
      ((8/10 * volatility_risk + 15/100 * leverage_risk + 5/100 * size_risk) * 2))
    .ok { risk_score := risk_score, margin_ratio := margin_ratio,
          liquidation_price := liquidation_price,
          notional_value := notional_value,
          margin_required := margin_required,
          volatility_risk := volatility_risk }

/-- C6 counterexample: a position with positive entry price (1), positive
current price (1) and a leverage field holding 0 makes `assess_position_risk`
raise `ZeroDivisionError` at `notional_value / position.leverage` instead of
returning the claimed assessment. -/
theorem C6_counterexample :
    assess_position_risk default_risk_config
      { symbol := "BTC", size := 1, entry_price := 1, current_price := 1,
        leverage := some 0, unrealized_pnl := 0 } = .error .zeroDivision := rfl

/-- C6 amended: for every configuration with positive `max_position_size` and
`max_leverage` and every position with positive entry price, positive current
price and a nonzero leverage field, `assess_position_risk` returns exactly the
claimed fields — notional, margin required, liquidation price, margin ratio,
volatility/size/leverage risks and the clamped risk score — and any returned
risk score lies in [0, 1]. -/
theorem C6_position_risk (cfg : RiskConfig) (p : Position) (l : ℚ)
    (hep : 0 < p.entry_price) (hcp : 0 < p.current_price)
    (hlev : p.leverage = some l) (hl : l ≠ 0)
    (hmp : 0 < cfg.max_position_size) (hml : 0 < cfg.max_leverage) :
    assess_position_risk cfg p = .ok
      { risk_score := min 1 (max 0
          ((8/10 * min 1 (|p.current_price - p.entry_price| / p.entry_price * 15)
            + 15/100 * min 1 (l / cfg.max_leverage * 3)
            + 5/100 * min 1 (p.size * p.current_price / cfg.max_position_size * 2))
            * 2)),
        margin_ratio :=
          (p.current_price - p.entry_price * (1 - cfg.min_margin_ratio))
            / p.current_price,
        liquidation_price := p.entry_price * (1 - cfg.min_margin_ratio),
        notional_value := p.size * p.current_price,
        margin_required := p.size * p.current_price / l,
        volatility_risk :=
          min 1 (|p.current_price - p.entry_price| / p.entry_price * 15) }
    ∧ ∀ r, assess_position_risk cfg p = .ok r →
        0 ≤ r.risk_score ∧ r.risk_score ≤ 1 := by
  have hln : ¬ p.leverage = some 0 := by
    rw [hlev]
    simpa using hl
  have hen : ¬ p.entry_price = 0 := ne_of_gt hep
  have hmn : ¬ cfg.max_position_size = 0 := ne_of_gt hmp
  have hmln : ¬ (p.leverage ≠ none ∧ cfg.max_leverage = 0) := by
    rintro ⟨-, h0⟩
    exact absurd h0 (ne_of_gt hml)
  have hval : assess_position_risk cfg p = .ok
      { risk_score := min 1 (max 0
          ((8/10 * min 1 (|p.current_price - p.entry_price| / p.entry_price * 15)
            + 15/100 * min 1 (l / cfg.max_leverage * 3)
            + 5/100 * min 1 (p.size * p.current_price / cfg.max_position_size * 2))
            * 2)),
        margin_ratio :=
          (p.current_price - p.entry_price * (1 - cfg.min_margin_ratio))
            / p.current_price,
        liquidation_price := p.entry_price * (1 - cfg.min_margin_ratio),
        notional_value := p.size * p.current_price,
        margin_required := p.size * p.current_price / l,
        volatility_risk :=
          min 1 (|p.current_price - p.entry_price| / p.entry_price * 15) } := by
    simp [assess_position_risk, hln, hen, hmn, hmln, hlev, hep, hcp, hl,
      ne_of_gt hml]
  refine ⟨hval, fun r hr => ?_⟩
  rw [hval] at hr
  injection hr with h2
  rw [← h2]
  constructor
  · exact le_min zero_le_one (le_max_left 0 _)
  · exact min_le_left _ _

/-- Closed witness for `C6_position_risk`: applied to the default
configuration and a long position of size 1 entered at 100 with mark price
110 and leverage 2. -/
theorem C6_position_risk_witness :
    assess_position_risk default_risk_config
      { symbol := "BTC", size := 1, entry_price := 100, current_price := 110,
        leverage := some 2, unrealized_pnl := 10 } = .ok
      { risk_score := min 1 (max 0
          ((8/10 * min 1 (|(110 : ℚ) - 100| / 100 * 15)
            + 15/100 * min 1 (2 / default_risk_config.max_leverage * 3)
            + 5/100 * min 1 (1 * 110 / default_risk_config.max_position_size * 2))
            * 2)),
        margin_ratio := ((110 : ℚ) - 100 * (1 - default_risk_config.min_margin_ratio)) / 110,
        liquidation_price := 100 * (1 - default_risk_config.min_margin_ratio),
        notional_value := 1 * 110,
        margin_required := 1 * 110 / 2,
        volatility_risk := min 1 (|(110 : ℚ) - 100| / 100 * 15) }
    ∧ ∀ r, assess_position_risk default_risk_config
        { symbol := "BTC", size := 1, entry_price := 100, current_price := 110,
          leverage := some 2, unrealized_pnl := 10 } = .ok r →
        0 ≤ r.risk_score ∧ r.risk_score ≤ 1 :=
  C6_position_risk default_risk_config
    { symbol := "BTC", size := 1, entry_price := 100, current_price := 110,
      leverage := some 2, unrealized_pnl := 10 } 2
    (by norm_num) (by norm_num) rfl (by norm_num)
    (by norm_num [default_risk_config]) (by norm_num [default_risk_config])

/-- Modelled from the spec: the `Portfolio` pydantic model
(`src.shared.models.pydantic_models`, not part of the sources) — a mapping
symbol → Position (kept in insertion order, as a Python dict is), total value
and free collateral. -/
structure Portfolio where
  positions : List (String × Position)
  total_value : ℚ
  free_collateral : ℚ
deriving DecidableEq

/-- `numpy.percentile(xs, 5)` with the default linear interpolation: sort,
take the fractional index `(n-1) * 5/100`, and interpolate between its two
neighbouring order statistics. -/
def percentile5 (xs : List ℚ) : ℚ :=
  match xs with
  | [] => 0
  | _ :: _ =>
    let s := xs.insertionSort (· ≤ ·)
    let pos : ℚ := ((xs.length : ℚ) - 1) * 5 / 100
    let i : ℕ := (⌊pos⌋).toNat
    let lo := s.getD i 0
    let hi := s.getD (i + 1) lo
    lo + (pos - (i : ℚ)) * (hi - lo)

/-- `RiskManagerAgent._get_risk_recommendations` (risk_manager_agent.py
lines 442-450): note it returns `None`, not an empty list, when no warning
fired. -/
def get_risk_recommendations (margin_warning concentration_warning : Bool) :
    Option (List String) :=
  let recommendations :=
    (if margin_warning then ["Reduce leverage"] else [])
      ++ (if concentration_warning then ["Diversify positions"] else [])
  if recommendations = [] then none else some recommendations

/-- The dict returned by `RiskManagerAgent.assess_portfolio_risk`.  The
empty-portfolio return (lines 373-381) has no `drawdown_warning` /
`max_drawdown` keys, hence those fields are `Option`; its
`recommended_actions` is the literal `[]` (`some []`), while the non-empty
branch uses `_get_risk_recommendations` which yields `None` when nothing
fired. -/
structure PortfolioRisk where
  total_risk_score : ℚ
  position_risks : List (String × PositionRisk)
  portfolio_var : ℚ
  margin_warning : Bool
  concentration_warning : Bool
  drawdown_warning : Option Bool
  max_drawdown : Option ℚ
  recommended_actions : Option (List String)
  diversification_score : ℚ
deriving DecidableEq

/-- `RiskManagerAgent.assess_portfolio_risk` (risk_manager_agent.py
lines 367-440).  An empty positions dict short-circuits to the all-neutral
result before any division; otherwise per-position assessments are taken in
order (a raise propagates), and every division in the aggregate step is
guarded by the source's `if ... > 0 else 0` conditionals.  `initial_value`
is the hard-coded 1,000,000 of line 412; `max_position` models Python
`max(..., default=0)`. -/
def assess_portfolio_risk (cfg : RiskConfig) (portfolio : Portfolio) :
    Except PyExn PortfolioRisk :=
  if portfolio.positions.isEmpty then
    .ok { total_risk_score := 0, position_risks := [], portfolio_var := 0,
          margin_warning := false, concentration_warning := false,
          drawdown_warning := none, max_drawdown := none,
          recommended_actions := some [], diversification_score := 0 }
  else do
    let position_risks ← portfolio.positions.mapM fun sp =>
      (assess_position_risk cfg sp.2).map fun r => (sp.1, r)
    let total_risk_score :=
      (position_risks.map fun sr => sr.2.risk_score * sr.2.notional_value).sum
    let total_notional :=
      (position_risks.map fun sr => sr.2.notional_value).sum
    let margin_ratio :=
      if 0 < portfolio.total_value then
        portfolio.free_collateral / portfolio.total_value
      else 0
    let margin_warning := decide (margin_ratio < cfg.min_margin_ratio)
    let max_position :=
      ((portfolio.positions.map fun sp => sp.2.size * sp.2.current_price).max?).getD 0
    let concentration_warning :=
      if 0 < total_notional then decide (1/2 < max_position / total_notional)
      else false
    let diversification_score :=
      min 1 ((portfolio.positions.length : ℚ) / 10)
    let initial_value : ℚ := 1000000
    let current_drawdown :=
      if 0 < portfolio.total_value then
        (initial_value - portfolio.total_value) / initial_value
      else 0
    let drawdown_warning := decide (15/100 < current_drawdown)
    pure { total_risk_score :=
             if 0 < total_notional then total_risk_score / total_notional else 0,
           position_risks := position_risks,
           portfolio_var := |percentile5 (position_risks.map fun sr => sr.2.risk_score)|,
           margin_warning := margin_warning,
           concentration_warning := concentration_warning,
           drawdown_warning := some drawdown_warning,
           max_drawdown := some current_drawdown,
           recommended_actions :=
             get_risk_recommendations margin_warning concentration_warning,
           diversification_score := diversification_score }

/-- C7: for every portfolio with no positions (whatever its total value and
free collateral), `assess_portfolio_risk` returns the all-neutral result —
total risk score 0, empty per-position risks, portfolio VaR 0, no margin
warning, no concentration warning, empty recommended actions,
diversification score 0 — and no division (hence no `ZeroDivisionError`)
is performed. -/
theorem C7_empty_portfolio (cfg : RiskConfig) (total_value free_collateral : ℚ) :
    assess_portfolio_risk cfg
      { positions := [], total_value := total_value,
        free_collateral := free_collateral }
      = .ok { total_risk_score := 0, position_risks := [], portfolio_var := 0,
              margin_warning := false, concentration_warning := false,
              drawdown_warning := none, max_drawdown := none,
              recommended_actions := some [], diversification_score := 0 } := rfl

/-- The trading-mode enumeration (strategy_switcher.py lines 15-17). -/
inductive TradingMode where
  | dex_swap
  | pump_fun
deriving DecidableEq

/-- The mode state of `StrategySwitcher`: the current mode and the time of
the last switch (`self.current_mode`, `self.mode_switch_time`;
strategy_switcher.py lines 40-41).  Times are seconds on an absolute
clock. -/
structure SwitcherState where
  current_mode : TradingMode
  mode_switch_time : ℚ
deriving DecidableEq

/-- The advisory consumed by `should_switch_mode`
(`ai_model.analyze_strategy_switch`, strategy_switcher.py lines 86-94):
a recommended mode and a confidence. -/
structure StrategyAnalysis where
  recommended_mode : TradingMode
  confidence : ℚ
deriving DecidableEq

/-- `StrategySwitcher.should_switch_mode` (strategy_switcher.py lines 73-100)
as a function of the current clock reading and the advisory: `None` while
less than `min_mode_duration` seconds have elapsed since the last switch;
once eligible, recommend a switch exactly when the advisory confidence
exceeds 0.8 strictly and the recommended mode differs from the current
one. -/
def should_switch_mode (min_mode_duration : ℚ) (st : SwitcherState)
    (now : ℚ) (analysis : StrategyAnalysis) : Option TradingMode :=
  if now - st.mode_switch_time < min_mode_duration then none
  else if 4/5 < analysis.confidence
      ∧ analysis.recommended_mode ≠ st.current_mode then
    some analysis.recommended_mode
  else none

/-- One iteration of `StrategySwitcher.run` (strategy_switcher.py
lines 124-128): adopt the recommended mode and reset the switch timer when
`should_switch_mode` returned a mode differing from the current one (the
source re-reads the clock when storing the switch time; both readings are
modelled by the single instant `now`). -/
def run_iteration (min_mode_duration : ℚ) (st : SwitcherState)
    (now : ℚ) (analysis : StrategyAnalysis) : SwitcherState :=
  match should_switch_mode min_mode_duration st now analysis with
  | some new_mode =>
    if new_mode ≠ st.current_mode then
      { current_mode := new_mode, mode_switch_time := now }
    else st
  | none => st

/-- C8: while less than `min_mode_duration` has elapsed since the last switch
the state never changes, whatever the advisory says (confidence 1.0
included); once the dwell time has elapsed, the mode switches exactly when
the advisory confidence strictly exceeds 0.8 and the recommended mode
differs from the current one, and a switch resets the switch time to the
current instant. -/
theorem C8_mode_dwell (min_mode_duration : ℚ) (st : SwitcherState)
    (now : ℚ) (analysis : StrategyAnalysis) :
    (now - st.mode_switch_time < min_mode_duration →
      run_iteration min_mode_duration st now analysis = st)
    ∧ (min_mode_duration ≤ now - st.mode_switch_time →
        ((4/5 < analysis.confidence
            ∧ analysis.recommended_mode ≠ st.current_mode) →
          run_iteration min_mode_duration st now analysis
            = { current_mode := analysis.recommended_mode,
                mode_switch_time := now })
        ∧ (¬(4/5 < analysis.confidence
            ∧ analysis.recommended_mode ≠ st.current_mode) →
          run_iteration min_mode_duration st now analysis = st)) := by
  constructor
  · intro hdwell
    unfold run_iteration should_switch_mode
    rw [if_pos hdwell]
  · intro helapsed
    constructor
    · intro hswitch
      unfold run_iteration should_switch_mode
      rw [if_neg (not_lt.mpr helapsed), if_pos hswitch]
      exact if_pos hswitch.2
    · intro hno
      unfold run_iteration should_switch_mode
      rw [if_neg (not_lt.mpr helapsed), if_neg hno]

/-- Closed witness for `C8_mode_dwell`: with a 300-second dwell time and a
last switch at time 0, an advisory with confidence 1.0 recommending the
other mode is ignored at time 60, while at time 300 the same advisory
switches the mode and resets the timer. -/
theorem C8_mode_dwell_witness :
    run_iteration 300 ⟨.dex_swap, 0⟩ 60 ⟨.pump_fun, 1⟩ = ⟨.dex_swap, 0⟩
    ∧ run_iteration 300 ⟨.dex_swap, 0⟩ 300 ⟨.pump_fun, 1⟩ = ⟨.pump_fun, 300⟩ :=
  ⟨(C8_mode_dwell 300 ⟨.dex_swap, 0⟩ 60 ⟨.pump_fun, 1⟩).1 (by norm_num),
   ((C8_mode_dwell 300 ⟨.dex_swap, 0⟩ 300 ⟨.pump_fun, 1⟩).2 (by norm_num)).1
     ⟨by norm_num, by decide⟩⟩
